import Mathlib

/-!
Verification of the EventManagementTool booking and ticketing core.

Shallow embedding of shared_code/events_crud.py and shared_code/ticket_crud.py
from the evecs-db repository.  Modelling conventions:

* Timestamps are modelled as Nat values that are already normalized to UTC;
  format_UTC_0 delegates normalization to dateutil and Cosmos compares the
  normalized ISO strings, which on Nat is the usual order.
* A JSON request body is a typed record whose fields are Option values: a
  missing key is none.  Where a claim depends on a field arriving with the
  wrong runtime type (max_tick in create_event), the field carries an explicit
  sum type; fields whose type checks no claim touches (name/desc strings,
  code string) are typed directly, so those isinstance checks pass by
  construction and are noted in place.
* Cosmos query_items with an equality filter returns matches in order; the
  Python code takes items[0], which is List.find?.  create_item appends,
  replace_item rewrites the document with the same id, delete_item removes
  the document with the given id.
* jsonschema.validate with a "format" keyword and no FormatChecker does not
  enforce the format, so the email-format check accepts every string.
-/

namespace Evecs

/-- valid_tags global set (events_crud.py line 18). -/
def validTags : List String :=
  ["Lecture", "Society", "Leisure", "Sports", "Music", "Compulsory",
   "Optional", "Academic"]

/-- valid_groups global set (events_crud.py lines 19-21). -/
def validGroups : List String :=
  ["COMP3200", "COMP3227", "COMP3228", "COMP3269", "COMP3420", "COMP3666",
   "COMP3229", "Badminton Society", "Chess Society", "Basketball Society",
   "Standup Comedy Society", "ECS Society"]

structure Room where
  room_id : String
  capacity : Int
  events_ids : List String
deriving DecidableEq

structure Location where
  location_id : String
  rooms : List Room
  events_ids : List String
deriving DecidableEq

structure User where
  user_id : String
  auth : Bool
deriving DecidableEq

structure Event where
  event_id : String
  code : String
  creator_id : List String
  name : String
  groups : List String
  desc : String
  location_id : String
  room_id : String
  start_date : Nat
  end_date : Nat
  max_tick : Int
  tags : List String
deriving DecidableEq

structure Ticket where
  ticket_id : String
  user_id : String
  event_id : String
  email : String
  validated : Bool
deriving DecidableEq

/-- The document store: the four Cosmos containers. -/
structure DB where
  events : List Event
  locations : List Location
  users : List User
  tickets : List Ticket
deriving DecidableEq

/-- A JSON number field that may arrive with a non-numeric runtime type
    (the isinstance(body[\x22max_tick\x22], (int, float)) check). -/
inductive JNum where
  | num (n : Int)
  | notNum
deriving DecidableEq

/-- Request body of create_event.  Mandatory keys are user_id, name, groups,
    desc, location_id, room_id, start_date, end_date, max_tick; tags is
    optional (img_url is passed through untouched and no claim mentions it,
    so it is omitted). -/
structure EventReq where
  user_id : Option String
  name : Option String
  groups : Option (List String)
  desc : Option String
  location_id : Option String
  room_id : Option String
  start_date : Option Nat
  end_date : Option Nat
  max_tick : Option JNum
  tags : Option (List String)

inductive EvResp where
  | missingFields
  | invalidTimeRange
  | invalidMaxTick
  | locationEmpty
  | locationNotFound
  | userNotFound
  | unauthorized
  | invalidGroup
  | invalidTag
  | roomNotFound
  | capacityExceeded
  | roomConflict
  | success (event_id : String)
deriving DecidableEq

/-- Section 4.1 contract: half-open interval overlap,
    aStart < bEnd AND bStart < aEnd. -/
def overlaps (aStart aEnd bStart bEnd : Nat) : Bool :=
  decide (aStart < bEnd) && decide (bStart < aEnd)

/-- The room-availability SQL filter of create_event step 10:
    same location_id and room_id, c.end_date > @start AND c.start_date < @end. -/
def conflictsWith (ev : Event) (loc rid : String) (s e : Nat) : Bool :=
  ev.location_id == loc && ev.room_id == rid &&
    decide (s < ev.end_date) && decide (ev.start_date < e)

/-- Append the new event_id to the events_ids of the first room whose room_id
    matches (the for/break loop of create_event). -/
def addRoomRef : List Room → String → String → List Room
  | [], _, _ => []
  | r :: rs, rid, eid =>
    if r.room_id == rid then { r with events_ids := r.events_ids ++ [eid] } :: rs
    else r :: addRoomRef rs rid eid

/-- The two events_ids appends to the location document of create_event. -/
def addLocationRefs (l : Location) (rid eid : String) : Location :=
  { l with events_ids := l.events_ids ++ [eid],
           rooms := addRoomRef l.rooms rid eid }

/-- Body of create_event after the mandatory-field check, with all fields
    unwrapped.  Checks appear in the order of events_crud.py lines 87-262;
    the name/desc isinstance checks (step 6) pass by construction here. -/
def createEventBody (db : DB) (uid nm dsc loc rid : String) (gs tg : List String)
    (sd ed : Nat) (mt : JNum) (newId newCode : String) : EvResp × DB :=
  if ed ≤ sd then (.invalidTimeRange, db)
  else match mt with
  | .notNum => (.invalidMaxTick, db)
  | .num m =>
    if m ≤ 0 then (.invalidMaxTick, db)
    else if loc == "" then (.locationEmpty, db)
    else match db.locations.find? (fun l => l.location_id == loc) with
    | none => (.locationNotFound, db)
    | some locDoc =>
      match db.users.find? (fun u => u.user_id == uid) with
      | none => (.userNotFound, db)
      | some userDoc =>
        if !userDoc.auth then (.unauthorized, db)
        else if gs.any (fun g => !(validGroups.contains g)) then (.invalidGroup, db)
        else if tg.any (fun t => !(validTags.contains t)) then (.invalidTag, db)
        else match locDoc.rooms.find? (fun r => r.room_id == rid) with
        | none => (.roomNotFound, db)
        | some room =>
          if room.capacity < m then (.capacityExceeded, db)
          else if db.events.any (fun ev => conflictsWith ev loc rid sd ed) then
            (.roomConflict, db)
          else
            let doc : Event :=
              { event_id := newId, code := newCode, creator_id := [uid],
                name := nm, groups := gs, desc := dsc, location_id := loc,
                room_id := rid, start_date := sd, end_date := ed,
                max_tick := m, tags := tg }
            (.success newId,
             { db with
               events := db.events ++ [doc],
               locations := db.locations.map
                 (fun l => if l.location_id == loc then addLocationRefs l rid newId else l) })

/-- create_event (events_crud.py lines 60-328).  newId and newCode stand for
    the uuid4 and random 6-character code generated on success. -/
def createEvent (db : DB) (req : EventReq) (newId newCode : String) : EvResp × DB :=
  match req.user_id, req.name, req.groups, req.desc, req.location_id, req.room_id,
        req.start_date, req.end_date, req.max_tick with
  | some uid, some nm, some gs, some dsc, some loc, some rid,
    some sd, some ed, some mt =>
    createEventBody db uid nm dsc loc rid gs (req.tags.getD []) sd ed mt newId newCode
  | _, _, _, _, _, _, _, _, _ => (.missingFields, db)

/-- Request body of create_ticket; mandatory keys user_id, event_id, email. -/
structure TicketReq where
  user_id : Option String
  event_id : Option String
  email : Option String

inductive TkResp where
  | missingField
  | invalidEmail
  | duplicateEmail
  | userNotFound
  | eventNotFound
  | eventFull
  | success (ticket_id : String)
deriving DecidableEq

/-- The email-format check of create_ticket/update_ticket: jsonschema.validate
    with format email and no FormatChecker accepts every string. -/
def emailFormatOk (_ : String) : Bool := true

/-- SELECT VALUE COUNT(1) FROM c WHERE c.event_id = @event_id on Tickets. -/
def issuedCount (db : DB) (eid : String) : Nat :=
  (db.tickets.filter (fun t => t.event_id == eid)).length

/-- create_ticket (ticket_crud.py lines 17-158).  newId stands for the uuid4
    generated on success; the ticket is persisted with validated = false. -/
def createTicket (db : DB) (req : TicketReq) (newId : String) : TkResp × DB :=
  match req.user_id, req.event_id, req.email with
  | some uid, some eid, some email =>
    if !emailFormatOk email then (.invalidEmail, db)
    else if db.tickets.any (fun t => t.event_id == eid && t.email == email) then
      (.duplicateEmail, db)
    else if (db.users.find? (fun u => u.user_id == uid)).isNone then
      (.userNotFound, db)
    else match db.events.find? (fun e => e.event_id == eid) with
    | none => (.eventNotFound, db)
    | some ev =>
      if ev.max_tick ≤ (issuedCount db eid : Int) then (.eventFull, db)
      else
        (.success newId,
         { db with tickets := db.tickets ++ [⟨newId, uid, eid, email, false⟩] })
  | _, _, _ => (.missingField, db)

/-- Cosmos delete_item on the Tickets container: removes the document whose
    id (= ticket_id) matches. -/
def removeTicketById (ts : List Ticket) (tid : String) : List Ticket :=
  ts.filter (fun t => !(t.ticket_id == tid))

/-- Cosmos replace_item on the Tickets container: rewrites the document whose
    id (= ticket_id) matches the given document. -/
def replaceTicket (ts : List Ticket) (doc : Ticket) : List Ticket :=
  ts.map (fun t => if t.ticket_id == doc.ticket_id then doc else t)

structure DeleteEventReq where
  event_id : Option String
  user_id : Option String

inductive DelResp where
  | missing
  | eventNotFound
  | userNotFound
  | forbidden
  | success (deletedTickets : Nat)
deriving DecidableEq

/-- delete_event (events_crud.py lines 330-419): allowed when the user has
    auth = true or is in the creator_id list; then every ticket returned by
    the event_id query is deleted by its ticket_id, then the event document
    is deleted.  The empty-string test mirrors Python falsiness of
    body.get(...). -/
def deleteEvent (db : DB) (req : DeleteEventReq) : DelResp × DB :=
  match req.event_id, req.user_id with
  | some eid, some uid =>
    if eid == "" || uid == "" then (.missing, db)
    else match db.events.find? (fun e => e.event_id == eid) with
    | none => (.eventNotFound, db)
    | some evDoc =>
      match db.users.find? (fun u => u.user_id == uid) with
      | none => (.userNotFound, db)
      | some userDoc =>
        if !userDoc.auth && !(evDoc.creator_id.contains uid) then (.forbidden, db)
        else
          let matching := db.tickets.filter (fun t => t.event_id == eid)
          (.success matching.length,
           { db with
             tickets := matching.foldl (fun acc t => removeTicketById acc t.ticket_id) db.tickets,
             events := db.events.filter (fun e => !(e.event_id == eid)) })
  | _, _ => (.missing, db)

inductive ValResp where
  | missing
  | ticketNotFound
  | notTicketOwner
  | eventNotFound
  | invalidCode
  | success
deriving DecidableEq

/-- validate_ticket (ticket_crud.py lines 431-530): loads the ticket, checks
    ownership, loads the referenced event, checks the event code, then sets
    validated = true and replaces the document.  The typed Event always
    carries its code field, so the code-missing branch of step 5 reduces to
    the inequality test. -/
def validateTicket (db : DB) (ticket_id user_id code : String) : ValResp × DB :=
  if ticket_id == "" || user_id == "" || code == "" then (.missing, db)
  else match db.tickets.find? (fun t => t.ticket_id == ticket_id) with
  | none => (.ticketNotFound, db)
  | some tk =>
    if tk.user_id ≠ user_id then (.notTicketOwner, db)
    else match db.events.find? (fun e => e.event_id == tk.event_id) with
    | none => (.eventNotFound, db)
    | some ev =>
      if ev.code ≠ code then (.invalidCode, db)
      else (.success,
            { db with tickets := replaceTicket db.tickets { tk with validated := true } })

/-- Request body of update_ticket: ticket_id required, email and validated
    optional.  validated is typed Bool (the isinstance bool check passes by
    construction). -/
structure UpdateTicketReq where
  ticket_id : Option String
  email : Option String
  validated : Option Bool

inductive UtResp where
  | missingId
  | ticketNotFound
  | invalidEmail
  | duplicateEmail
  | nothingToUpdate
  | success
deriving DecidableEq

/-- Tail of update_ticket after the optional email step: applies the optional
    validated update, then replaces the document when anything changed. -/
def updateTicketFinish (db : DB) (validatedField : Option Bool) (tk : Ticket)
    (updatedAnything : Bool) : UtResp × DB :=
  match validatedField with
  | some v =>
    (.success, { db with tickets := replaceTicket db.tickets { tk with validated := v } })
  | none =>
    if updatedAnything then
      (.success, { db with tickets := replaceTicket db.tickets tk })
    else (.nothingToUpdate, db)

/-- update_ticket (ticket_crud.py lines 298-428): loads the ticket, optionally
    updates email (uniqueness checked against other tickets of the same
    event), optionally updates validated with whatever boolean the body
    carries, and replaces the document. -/
def updateTicket (db : DB) (req : UpdateTicketReq) : UtResp × DB :=
  match req.ticket_id with
  | none => (.missingId, db)
  | some tid =>
    if tid == "" then (.missingId, db)
    else match db.tickets.find? (fun t => t.ticket_id == tid) with
    | none => (.ticketNotFound, db)
    | some tk =>
      match req.email with
      | some em =>
        if !emailFormatOk em then (.invalidEmail, db)
        else if db.tickets.any
            (fun t => t.event_id == tk.event_id && t.email == em && !(t.ticket_id == tid)) then
          (.duplicateEmail, db)
        else updateTicketFinish db req.validated { tk with email := em } true
      | none => updateTicketFinish db req.validated tk false

/-- Patch body of update_event.  event_id and user_id are required; the
    updatable fields mirror events_crud.py lines 508-511 (max_tick_pp and
    img_url are omitted: events created by create_event carry neither unless
    supplied, and no claim mentions them).  tags distinguishes absent (none),
    present-as-null (some none) and present-as-list (some (some l)). -/
structure EventPatch where
  event_id : Option String
  user_id : Option String
  name : Option String
  groups : Option (List String)
  desc : Option String
  location_id : Option String
  room_id : Option String
  start_date : Option Nat
  end_date : Option Nat
  max_tick : Option Int
  tags : Option (Option (List String))

inductive UeResp where
  | missing
  | eventNotFound
  | userNotFound
  | unauthorized
  | invalidTag
  | invalidTimeRange
  | invalidMaxTick
  | locationEmpty
  | locationNotFound
  | invalidGroup
  | roomNotFound
  | capacityExceeded
  | roomConflict
  | success
deriving DecidableEq

/-- The tags-handling block of update_event (lines 483-505): null clears the
    list, a list is accepted when every tag is in the vocabulary; returns
    none on an invalid tag. -/
def tagsAfterPatch (old : List String) : Option (Option (List String)) → Option (List String)
  | none => some old
  | some none => some []
  | some (some l) => if l.all (fun t => validTags.contains t) then some l else none

/-- The room/capacity/conflict validation block of update_event (lines
    650-722), entered only when room_id, location_id or max_tick was in the
    body; the overlap query runs only when room_id, start_date or end_date
    was in the body and excludes the event's own event_id. -/
def updateEventRoomBlock (db : DB) (p : EventPatch) (eid : String) (ev1 : Event)
    (commit : DB) : UeResp × DB :=
  match db.locations.find? (fun l => l.location_id == ev1.location_id) with
  | none => (.locationNotFound, db)
  | some locDoc =>
    match locDoc.rooms.find? (fun r => r.room_id == ev1.room_id) with
    | none => (.roomNotFound, db)
    | some room =>
      if room.capacity < ev1.max_tick then (.capacityExceeded, db)
      else if (p.room_id.isSome || p.start_date.isSome || p.end_date.isSome)
          && db.events.any (fun e =>
               conflictsWith e ev1.location_id ev1.room_id ev1.start_date ev1.end_date
                 && !(e.event_id == eid)) then
        (.roomConflict, db)
      else (.success, commit)

/-- The merge of the patch into the stored event (events_crud.py lines
    483-514): tags as resolved by the tags block, the other updatable fields
    taken from the body when present. -/
def mergePatch (ev0 : Event) (p : EventPatch) (newTags : List String) : Event :=
  { ev0 with
    tags := newTags,
    name := p.name.getD ev0.name,
    groups := p.groups.getD ev0.groups,
    desc := p.desc.getD ev0.desc,
    location_id := p.location_id.getD ev0.location_id,
    room_id := p.room_id.getD ev0.room_id,
    start_date := p.start_date.getD ev0.start_date,
    end_date := p.end_date.getD ev0.end_date,
    max_tick := p.max_tick.getD ev0.max_tick }

/-- Body of update_event after the permission check: the re-validations of
    events_crud.py lines 518-647 on the merged document (the img_url URL
    check and the name/desc/code isinstance checks pass by construction in
    the typed model), then the room block, then replace_item commits the
    merge. -/
def updateEventBody (db : DB) (p : EventPatch) (eid : String) (ev0 : Event)
    (newTags : List String) : UeResp × DB :=
  let ev1 := mergePatch ev0 p newTags
  if ev1.end_date ≤ ev1.start_date then (.invalidTimeRange, db)
  else if ev1.max_tick ≤ 0 then (.invalidMaxTick, db)
  else if ev1.location_id == "" then (.locationEmpty, db)
  else if (db.locations.find? (fun l => l.location_id == ev1.location_id)).isNone then
    (.locationNotFound, db)
  else if ev1.groups.any (fun g => !(validGroups.contains g)) then (.invalidGroup, db)
  else if ev1.tags.any (fun t => !(validTags.contains t)) then (.invalidTag, db)
  else
    let commit : DB :=
      { db with events := db.events.map (fun e => if e.event_id == eid then ev1 else e) }
    if p.room_id.isSome || p.location_id.isSome || p.max_tick.isSome then
      updateEventRoomBlock db p eid ev1 commit
    else (.success, commit)

/-- update_event (events_crud.py lines 422-746).  The docstring of the source
    states that any admin user can update any event: the only permission
    check is user auth = true. -/
def updateEvent (db : DB) (p : EventPatch) : UeResp × DB :=
  match p.event_id, p.user_id with
  | some eid, some uid =>
    if eid == "" || uid == "" then (.missing, db)
    else match db.events.find? (fun e => e.event_id == eid) with
    | none => (.eventNotFound, db)
    | some ev0 =>
      match db.users.find? (fun u => u.user_id == uid) with
      | none => (.userNotFound, db)
      | some userDoc =>
        if !userDoc.auth then (.unauthorized, db)
        else match tagsAfterPatch ev0.tags p.tags with
        | none => (.invalidTag, db)
        | some newTags => updateEventBody db p eid ev0 newTags
  | _, _ => (.missing, db)

/-- The dynamic capacity gate of create_ticket taken in isolation (lines
    110-122): a call whose COUNT query observed the given count is admitted
    iff count < max_tick. -/
def ticketGateAdmits (observedCount : Nat) (maxTick : Int) : Bool :=
  !(maxTick ≤ (observedCount : Int))

/-- Two create_ticket calls for the same event interleaved so that both COUNT
    queries run before either insert: the schedule the naive
    read-count-then-insert of create_ticket permits, since no transaction,
    ETag condition or counter ties the count read to the insert.  Returns
    the two admission outcomes and the final store. -/
def twoParallelCreates (db : DB) (eid : String) (mt : Int) (t1 t2 : Ticket) :
    Bool × Bool × DB :=
  let c1 := issuedCount db eid
  let c2 := issuedCount db eid
  let s1 := if ticketGateAdmits c1 mt then { db with tickets := db.tickets ++ [t1] } else db
  let s2 := if ticketGateAdmits c2 mt then { s1 with tickets := s1.tickets ++ [t2] } else s1
  (ticketGateAdmits c1 mt, ticketGateAdmits c2 mt, s2)

/-! ### Fixtures used by the witnesses and counterexamples -/

/-- Scenario fixture: room R1 with capacity 40. -/
def exRoom : Room := ⟨"R1", 40, []⟩

/-- Scenario fixture: location L1 owning room R1. -/
def exLoc : Location := ⟨"L1", [exRoom], []⟩

/-- Scenario fixture: an authorized user. -/
def exAlice : User := ⟨"alice", true⟩

/-- Scenario B fixture: an event occupying room R1 of L1 over [10, 12). -/
def exEvent1 : Event :=
  ⟨"E1", "C0DE11", ["alice"], "lecture", ["COMP3200"], "d", "L1", "R1", 10, 12, 5, []⟩

/-- Scenario B fixture store: one event, one location, one user, no tickets. -/
def exDB1 : DB := ⟨[exEvent1], [exLoc], [exAlice], []⟩

/-! ### C1: room conflict decided exactly by half-open overlap -/

/-- C1: for a create_event request that passes every check before the
    availability query, the request is rejected with RoomConflict exactly
    when some existing event bound to the same (location_id, room_id) has a
    half-open interval overlapping the requested one (aStart < bEnd and
    bStart < aEnd); when every such event avoids overlap, in particular every
    back-to-back event, the request is admitted. -/
theorem C1_room_conflict_iff_overlap
    (db : DB) (uid nm dsc loc rid newId newCode : String) (gs tg : List String)
    (sd ed : Nat) (m : Int) (locDoc : Location) (userDoc : User) (room : Room)
    (hdate : sd < ed) (hm : 0 < m) (hloc : loc ≠ "")
    (hfindLoc : db.locations.find? (fun l => l.location_id == loc) = some locDoc)
    (hfindUser : db.users.find? (fun u => u.user_id == uid) = some userDoc)
    (hauth : userDoc.auth = true)
    (hg : gs.any (fun g => !(validGroups.contains g)) = false)
    (ht : tg.any (fun t => !(validTags.contains t)) = false)
    (hfindRoom : locDoc.rooms.find? (fun r => r.room_id == rid) = some room)
    (hcap : m ≤ room.capacity) :
    ((createEvent db ⟨some uid, some nm, some gs, some dsc, some loc, some rid,
        some sd, some ed, some (.num m), some tg⟩ newId newCode).1 = .roomConflict
      ↔ ∃ ev ∈ db.events, ev.location_id = loc ∧ ev.room_id = rid ∧
          overlaps sd ed ev.start_date ev.end_date = true)
    ∧ ((∀ ev ∈ db.events, ev.location_id = loc → ev.room_id = rid →
          overlaps sd ed ev.start_date ev.end_date = false) →
        (createEvent db ⟨some uid, some nm, some gs, some dsc, some loc, some rid,
          some sd, some ed, some (.num m), some tg⟩ newId newCode).1 = .success newId) := by
  have hds : ¬ (ed ≤ sd) := by omega
  have hm0 : ¬ (m ≤ 0) := by omega
  have hcapn : ¬ (room.capacity < m) := by omega
  have hlocb : (loc == "") = false := by simp [hloc]
  have key : (createEvent db ⟨some uid, some nm, some gs, some dsc, some loc, some rid,
        some sd, some ed, some (.num m), some tg⟩ newId newCode).1 =
      (if db.events.any (fun ev => conflictsWith ev loc rid sd ed)
       then EvResp.roomConflict else .success newId) := by
    simp only [createEvent, createEventBody, Option.getD, hfindLoc, hfindUser, hauth, hg, ht,
      hfindRoom, hlocb, if_neg hds, if_neg hm0, if_neg hcapn, Bool.not_true,
      Bool.false_eq_true, if_false]
    split <;> rfl
  rw [key]
  have hconf : (db.events.any (fun ev => conflictsWith ev loc rid sd ed) = true) ↔
      (∃ ev ∈ db.events, ev.location_id = loc ∧ ev.room_id = rid ∧
        overlaps sd ed ev.start_date ev.end_date = true) := by
    simp [List.any_eq_true, conflictsWith, overlaps, Bool.and_eq_true, and_assoc]
  constructor
  · constructor
    · intro h
      by_contra hne
      rw [if_neg] at h
      · exact absurd h (by intro hh; cases hh)
      · intro hany
        exact hne (hconf.mp hany)
    · intro h
      rw [if_pos (hconf.mpr h)]
  · intro hall
    rw [if_neg]
    intro hany
    obtain ⟨ev, hev, h1, h2, h3⟩ := hconf.mp hany
    have := hall ev hev h1 h2
    rw [this] at h3
    cases h3

/-- C1 witness, Scenario B: against the [10, 12) booking of room R1, a request
    for [11, 13) is rejected with RoomConflict, and the back-to-back request
    for [12, 13) is admitted. -/
theorem C1_witness :
    (createEvent exDB1 ⟨some "alice", some "n", some ["COMP3200"], some "d", some "L1",
       some "R1", some 11, some 13, some (.num 5), some []⟩ "E2" "K2").1 = .roomConflict
    ∧ (createEvent exDB1 ⟨some "alice", some "n", some ["COMP3200"], some "d", some "L1",
       some "R1", some 12, some 13, some (.num 5), some []⟩ "E3" "K3").1 = .success "E3" := by
  constructor
  · exact (C1_room_conflict_iff_overlap exDB1 "alice" "n" "d" "L1" "R1" "E2" "K2"
      ["COMP3200"] [] 11 13 5 exLoc exAlice exRoom (by decide) (by decide) (by decide)
      rfl rfl rfl rfl rfl rfl (by decide)).1.mpr
      ⟨exEvent1, by decide, rfl, rfl, by decide⟩
  · exact (C1_room_conflict_iff_overlap exDB1 "alice" "n" "d" "L1" "R1" "E3" "K3"
      ["COMP3200"] [] 12 13 5 exLoc exAlice exRoom (by decide) (by decide) (by decide)
      rfl rfl rfl rfl rfl rfl (by decide)).2 (by decide)

/-! ### C3: static capacity gate of create_event -/

/-- C3: create_event rejects a request whose max_tick is not a number, or is
    not strictly positive, with the capacity error of step 2, and rejects a
    request whose max_tick exceeds the resolved room's capacity with the
    CapacityExceeded error of step 9; in both cases the store is untouched. -/
theorem C3_static_capacity_gate
    (db : DB) (uid nm dsc loc rid newId newCode : String) (gs tg : List String)
    (sd ed : Nat) (m : Int) (locDoc : Location) (userDoc : User) (room : Room)
    (hdate : sd < ed) (hloc : loc ≠ "")
    (hfindLoc : db.locations.find? (fun l => l.location_id == loc) = some locDoc)
    (hfindUser : db.users.find? (fun u => u.user_id == uid) = some userDoc)
    (hauth : userDoc.auth = true)
    (hg : gs.any (fun g => !(validGroups.contains g)) = false)
    (ht : tg.any (fun t => !(validTags.contains t)) = false)
    (hfindRoom : locDoc.rooms.find? (fun r => r.room_id == rid) = some room) :
    (createEvent db ⟨some uid, some nm, some gs, some dsc, some loc, some rid,
        some sd, some ed, some .notNum, some tg⟩ newId newCode = (.invalidMaxTick, db))
    ∧ (m ≤ 0 →
        createEvent db ⟨some uid, some nm, some gs, some dsc, some loc, some rid,
          some sd, some ed, some (.num m), some tg⟩ newId newCode = (.invalidMaxTick, db))
    ∧ (0 < m → room.capacity < m →
        createEvent db ⟨some uid, some nm, some gs, some dsc, some loc, some rid,
          some sd, some ed, some (.num m), some tg⟩ newId newCode = (.capacityExceeded, db)) := by
  have hds : ¬ (ed ≤ sd) := by omega
  have hlocb : (loc == "") = false := by simp [hloc]
  refine ⟨?_, ?_, ?_⟩
  · simp only [createEvent, createEventBody, if_neg hds]
  · intro hm
    simp only [createEvent, createEventBody, if_neg hds, if_pos hm]
  · intro hm hcap
    have hm0 : ¬ (m ≤ 0) := by omega
    simp only [createEvent, createEventBody, Option.getD, hfindLoc, hfindUser, hauth, hg, ht,
      hfindRoom, hlocb, if_neg hds, if_neg hm0, if_pos hcap, Bool.not_true,
      Bool.false_eq_true, if_false]

/-- C3 witness, Scenario A: in a room of capacity 40, a request with
    max_tick = 50 is rejected with CapacityExceeded, a request with
    max_tick = 0 and a request with a non-numeric max_tick are rejected by
    the positivity check, and the store is unchanged each time. -/
theorem C3_witness :
    (createEvent exDB1 ⟨some "alice", some "n", some ["COMP3200"], some "d", some "L1",
       some "R1", some 20, some 21, some (.num 50), some []⟩ "E4" "K4" =
       (.capacityExceeded, exDB1))
    ∧ (createEvent exDB1 ⟨some "alice", some "n", some ["COMP3200"], some "d", some "L1",
       some "R1", some 20, some 21, some (.num 0), some []⟩ "E4" "K4" =
       (.invalidMaxTick, exDB1))
    ∧ (createEvent exDB1 ⟨some "alice", some "n", some ["COMP3200"], some "d", some "L1",
       some "R1", some 20, some 21, some .notNum, some []⟩ "E4" "K4" =
       (.invalidMaxTick, exDB1)) := by
  have h := C3_static_capacity_gate exDB1 "alice" "n" "d" "L1" "R1" "E4" "K4"
    ["COMP3200"] [] 20 21 50 exLoc exAlice exRoom (by decide) (by decide)
    rfl rfl rfl rfl rfl rfl
  have h0 := C3_static_capacity_gate exDB1 "alice" "n" "d" "L1" "R1" "E4" "K4"
    ["COMP3200"] [] 20 21 0 exLoc exAlice exRoom (by decide) (by decide)
    rfl rfl rfl rfl rfl rfl
  exact ⟨h.2.2 (by decide) (by decide), h0.2.1 (by decide), h.1⟩

/-! ### C2: dynamic capacity gate of create_ticket -/

/-- C2: for a create_ticket request that passes the mandatory-field, email,
    duplicate-email, user and event checks, the request is rejected with the
    EventFull error and no ticket is inserted when the number of tickets
    already issued for the event reaches max_tick; otherwise the new ticket
    is appended to the store with validated = false. -/
theorem C2_event_full_gate
    (db : DB) (uid eid em newId : String) (ev : Event)
    (hdup : db.tickets.any (fun t => t.event_id == eid && t.email == em) = false)
    (huser : (db.users.find? (fun u => u.user_id == uid)).isNone = false)
    (hev : db.events.find? (fun e => e.event_id == eid) = some ev) :
    (ev.max_tick ≤ (issuedCount db eid : Int) →
      createTicket db ⟨some uid, some eid, some em⟩ newId = (.eventFull, db))
    ∧ ((issuedCount db eid : Int) < ev.max_tick →
      createTicket db ⟨some uid, some eid, some em⟩ newId =
        (.success newId, { db with tickets := db.tickets ++ [⟨newId, uid, eid, em, false⟩] })) := by
  constructor
  · intro hfull
    simp only [createTicket, emailFormatOk, hdup, huser, hev, if_pos hfull, Bool.not_true,
      Bool.false_eq_true, if_false]
  · intro hfree
    have : ¬ (ev.max_tick ≤ (issuedCount db eid : Int)) := by omega
    simp only [createTicket, emailFormatOk, hdup, huser, hev, if_neg this, Bool.not_true,
      Bool.false_eq_true, if_false]

/-- Scenario C fixture: an event with max_tick = 1. -/
def exEventCap1 : Event :=
  ⟨"E9", "C0DE99", ["alice"], "small", ["COMP3200"], "d", "L1", "R1", 30, 31, 1, []⟩

/-- Scenario C fixture store before any ticket is issued. -/
def exDBcap0 : DB := ⟨[exEventCap1], [exLoc], [exAlice, ⟨"bob", true⟩], []⟩

/-- Scenario C fixture store after the first ticket was issued. -/
def exDBcap1 : DB :=
  ⟨[exEventCap1], [exLoc], [exAlice, ⟨"bob", true⟩], [⟨"T1", "alice", "E9", "a@x.com", false⟩]⟩

/-- C2 witness, Scenario C: against an event with max_tick = 1, the first
    ticket is issued and persisted, and a second ticket for a different email
    is rejected with EventFull leaving the store unchanged. -/
theorem C2_witness :
    (createTicket exDBcap0 ⟨some "alice", some "E9", some "a@x.com"⟩ "T1" =
      (.success "T1",
       { exDBcap0 with tickets := exDBcap0.tickets ++ [⟨"T1", "alice", "E9", "a@x.com", false⟩] }))
    ∧ (createTicket exDBcap1 ⟨some "bob", some "E9", some "b@x.com"⟩ "T2" =
      (.eventFull, exDBcap1)) := by
  constructor
  · exact (C2_event_full_gate exDBcap0 "alice" "E9" "a@x.com" "T1" exEventCap1
      rfl rfl rfl).2 (by decide)
  · exact (C2_event_full_gate exDBcap1 "bob" "E9" "b@x.com" "T2" exEventCap1
      rfl rfl rfl).1 (by decide)

/-! ### C7: one ticket per email per event -/

/-- (event_id, email) pairwise uniqueness across the ticket store. -/
def emailUnique (ts : List Ticket) : Prop :=
  ts.Pairwise (fun a b => ¬(a.event_id = b.event_id ∧ a.email = b.email))

instance (ts : List Ticket) : Decidable (emailUnique ts) := by
  unfold emailUnique
  infer_instance

/-- The per-ticket delete loop of delete_event, flattened: deleting each
    queried ticket by its ticket_id filters out exactly the tickets whose
    ticket_id occurs among the queried ones. -/
theorem foldl_removeTicketById (ms ts : List Ticket) :
    ms.foldl (fun acc t => removeTicketById acc t.ticket_id) ts =
      ts.filter (fun x => !(ms.any (fun t => x.ticket_id == t.ticket_id))) := by
  induction ms generalizing ts with
  | nil =>
    simp [List.filter_true]
  | cons t ms ih =>
    rw [List.foldl_cons, ih]
    rw [show removeTicketById ts t.ticket_id =
          ts.filter (fun x => !(x.ticket_id == t.ticket_id)) from rfl]
    rw [List.filter_filter]
    congr 1
    funext x
    cases hx : x.ticket_id == t.ticket_id <;> simp [List.any_cons, hx]

/-- ticket_id pairwise uniqueness: the document id that the store enforces
    as unique, used as a side condition for the replace_item operations. -/
def tidUnique (ts : List Ticket) : Prop :=
  ts.Pairwise (fun a b => a.ticket_id ≠ b.ticket_id)

instance (ts : List Ticket) : Decidable (tidUnique ts) := by
  unfold tidUnique
  infer_instance

/-- The (event_id, email) clash relation is symmetric. -/
theorem emailUnique_symm :
    ∀ {a b : Ticket}, ¬(a.event_id = b.event_id ∧ a.email = b.email) →
      ¬(b.event_id = a.event_id ∧ b.email = a.email) :=
  fun hr hc => hr ⟨hc.1.symm, hc.2.symm⟩

/-- replace_item keeps (event_id, email) uniqueness when document ids are
    unique and the incoming document clashes with no other ticket. -/
theorem emailUnique_replaceTicket (ts : List Ticket) (doc : Ticket)
    (htid : tidUnique ts) (huniq : emailUnique ts)
    (hok : ∀ t ∈ ts, t.ticket_id ≠ doc.ticket_id →
        ¬(t.event_id = doc.event_id ∧ t.email = doc.email)) :
    emailUnique (replaceTicket ts doc) := by
  unfold replaceTicket emailUnique
  rw [List.pairwise_map]
  have hcomb := htid.and huniq
  refine hcomb.imp_of_mem ?_
  intro a b ha hb hab
  obtain ⟨hne, hmail⟩ := hab
  by_cases hida : (a.ticket_id == doc.ticket_id) = true
  · rw [if_pos hida]
    by_cases hidb : (b.ticket_id == doc.ticket_id) = true
    · exact absurd (by rw [(by simpa using hida : a.ticket_id = doc.ticket_id),
        (by simpa using hidb : b.ticket_id = doc.ticket_id)]) hne
    · rw [if_neg hidb]
      intro hcon
      exact hok b hb (by simpa using hidb) ⟨hcon.1.symm, hcon.2.symm⟩
  · rw [if_neg hida]
    by_cases hidb : (b.ticket_id == doc.ticket_id) = true
    · rw [if_pos hidb]
      exact hok a ha (by simpa using hida)
    · rw [if_neg hidb]
      exact hmail

/-- The tail of update_ticket keeps (event_id, email) uniqueness when the
    written document clashes with no other ticket. -/
theorem emailUnique_updateTicketFinish (db : DB) (vf : Option Bool) (tk1 : Ticket) (u : Bool)
    (htid : tidUnique db.tickets) (h : emailUnique db.tickets)
    (hok : ∀ t ∈ db.tickets, t.ticket_id ≠ tk1.ticket_id →
        ¬(t.event_id = tk1.event_id ∧ t.email = tk1.email)) :
    emailUnique ((updateTicketFinish db vf tk1 u).2).tickets := by
  cases vf with
  | some v =>
    exact emailUnique_replaceTicket db.tickets { tk1 with validated := v } htid h hok
  | none =>
    cases u with
    | false => exact h
    | true => exact emailUnique_replaceTicket db.tickets tk1 htid h hok

/-- update_ticket preserves (event_id, email) uniqueness: an email change is
    checked against every other ticket of the same event before the replace. -/
theorem emailUnique_updateTicket (db : DB) (req : UpdateTicketReq)
    (htid : tidUnique db.tickets) (h : emailUnique db.tickets) :
    emailUnique ((updateTicket db req).2).tickets := by
  rcases req with ⟨t0, e0, v0⟩
  cases t0 with
  | none => exact h
  | some tid =>
    simp only [updateTicket]
    by_cases h0 : (tid == "") = true
    · rw [if_pos h0]; exact h
    · rw [if_neg h0]
      cases htk : db.tickets.find? (fun t => t.ticket_id == tid) with
      | none => exact h
      | some tk =>
        simp only []
        have htkmem := List.mem_of_find?_eq_some htk
        have htkid : tk.ticket_id = tid := by simpa using List.find?_some htk
        cases e0 with
        | some em =>
          show emailUnique
            ((if (!emailFormatOk em) = true then (UtResp.invalidEmail, db)
              else if (db.tickets.any fun t =>
                  t.event_id == tk.event_id && t.email == em && !(t.ticket_id == tid)) = true then
                (UtResp.duplicateEmail, db)
              else updateTicketFinish db v0 { tk with email := em } true).2).tickets
          rw [if_neg (by simp [emailFormatOk])]
          by_cases hdup : (db.tickets.any fun t =>
              t.event_id == tk.event_id && t.email == em && !(t.ticket_id == tid)) = true
          · rw [if_pos hdup]; exact h
          · rw [if_neg hdup]
            apply emailUnique_updateTicketFinish db v0 { tk with email := em } true htid h
            intro t ht hne hcon
            apply hdup
            rw [List.any_eq_true]
            refine ⟨t, ht, ?_⟩
            have hnid : t.ticket_id ≠ tid := by rw [← htkid]; exact hne
            simp [hcon.1, hcon.2, hnid]
        | none =>
          apply emailUnique_updateTicketFinish db v0 tk false htid h
          intro t ht hne
          exact h.forall (fun a b => emailUnique_symm) ht htkmem
            (fun he => hne (by rw [he]))

/-- validate_ticket preserves (event_id, email) uniqueness: it only rewrites
    the validated flag of the loaded ticket. -/
theorem emailUnique_validateTicket (db : DB) (tid uid code : String)
    (htid : tidUnique db.tickets) (h : emailUnique db.tickets) :
    emailUnique ((validateTicket db tid uid code).2).tickets := by
  unfold validateTicket
  split
  · exact h
  · cases htk : db.tickets.find? (fun t => t.ticket_id == tid) with
    | none => exact h
    | some tk =>
      simp only []
      split
      · exact h
      · cases hev : db.events.find? (fun e => e.event_id == tk.event_id) with
        | none => exact h
        | some ev =>
          simp only []
          split
          · exact h
          · have htkmem := List.mem_of_find?_eq_some htk
            apply emailUnique_replaceTicket db.tickets _ htid h
            intro t ht hne
            have hrel : ¬(t.event_id = tk.event_id ∧ t.email = tk.email) :=
              h.forall (fun a b => emailUnique_symm) ht htkmem
                (fun he => hne (by rw [he]))
            exact hrel

/-- delete_event preserves (event_id, email) uniqueness: the cascade only
    removes tickets. -/
theorem emailUnique_deleteEvent (db : DB) (req : DeleteEventReq)
    (h : emailUnique db.tickets) :
    emailUnique ((deleteEvent db req).2).tickets := by
  rcases req with ⟨e0, u0⟩
  cases e0 with
  | none => exact h
  | some eid =>
    cases u0 with
    | none => exact h
    | some uid =>
      simp only [deleteEvent]
      split
      · exact h
      · cases hev : db.events.find? (fun e => e.event_id == eid) with
        | none => exact h
        | some evDoc =>
          simp only []
          cases huser : db.users.find? (fun u => u.user_id == uid) with
          | none => exact h
          | some userDoc =>
            simp only []
            split
            · exact h
            · simp only []
              rw [foldl_removeTicketById]
              unfold emailUnique at h ⊢
              exact List.Pairwise.sublist (List.filter_sublist _) h

/-- C7: a create_ticket request whose (event_id, email) pair matches a stored
    ticket is rejected with the duplicate-email error and the store is left
    unchanged; and (event_id, email) uniqueness of the ticket store is
    preserved by every ticket-writing operation: create_ticket,
    update_ticket and validate_ticket (under the store-enforced uniqueness
    of ticket document ids) and the delete_event cascade.  create_event and
    update_event never write the Tickets container (they do not even receive
    its proxy). -/
theorem C7_duplicate_email_uniqueness
    (db : DB) (uid eid em newId : String) :
    ((db.tickets.any (fun t => t.event_id == eid && t.email == em) = true →
      createTicket db ⟨some uid, some eid, some em⟩ newId = (.duplicateEmail, db))
    ∧ (∀ req : TicketReq, emailUnique db.tickets →
        emailUnique ((createTicket db req newId).2).tickets))
    ∧ (∀ req : UpdateTicketReq, tidUnique db.tickets → emailUnique db.tickets →
        emailUnique ((updateTicket db req).2).tickets)
    ∧ (∀ tid uid2 code2, tidUnique db.tickets → emailUnique db.tickets →
        emailUnique ((validateTicket db tid uid2 code2).2).tickets)
    ∧ (∀ req : DeleteEventReq, emailUnique db.tickets →
        emailUnique ((deleteEvent db req).2).tickets) := by
  refine ⟨⟨?_, ?_⟩, fun req h1 h2 => emailUnique_updateTicket db req h1 h2,
    fun tid uid2 code2 h1 h2 => emailUnique_validateTicket db tid uid2 code2 h1 h2,
    fun req h1 => emailUnique_deleteEvent db req h1⟩
  · intro hdup
    simp only [createTicket, emailFormatOk, hdup, Bool.not_true, Bool.false_eq_true, if_false,
      if_true]
  · intro req h
    rcases req with ⟨u, e, m⟩
    cases u with
    | none => exact h
    | some u =>
      cases e with
      | none => exact h
      | some e =>
        cases m with
        | none => exact h
        | some em2 =>
          simp only [createTicket]
          rw [if_neg (by simp [emailFormatOk])]
          by_cases hdup : db.tickets.any (fun t => t.event_id == e && t.email == em2) = true
          · rw [if_pos hdup]; exact h
          · rw [if_neg hdup]
            by_cases hu : (db.users.find? (fun x => x.user_id == u)).isNone = true
            · rw [if_pos hu]; exact h
            · rw [if_neg hu]
              cases hev : db.events.find? (fun x => x.event_id == e) with
              | none => simp only [hev]; exact h
              | some ev =>
                simp only [hev]
                by_cases hful : ev.max_tick ≤ (issuedCount db e : Int)
                · rw [if_pos hful]; exact h
                · rw [if_neg hful]
                  simp only []
                  unfold emailUnique at h ⊢
                  rw [List.pairwise_append]
                  refine ⟨h, List.pairwise_singleton _ _, ?_⟩
                  intro a ha b hb
                  simp only [List.mem_singleton] at hb
                  subst hb
                  intro hcon
                  apply hdup
                  rw [List.any_eq_true]
                  exact ⟨a, ha, by simp [hcon.1, hcon.2]⟩

/-- C7 witness, Scenario D: issuing a second ticket with the email already
    registered for event E9 fails with the duplicate-email error and leaves
    the store unchanged, and a create_ticket call on a store with unique
    (event_id, email) pairs keeps them unique. -/
theorem C7_witness :
    (createTicket exDBcap1 ⟨some "bob", some "E9", some "a@x.com"⟩ "T2" =
      (.duplicateEmail, exDBcap1))
    ∧ emailUnique ((createTicket exDBcap1 ⟨some "bob", some "E9", some "b@x.com"⟩ "T2").2).tickets
    ∧ emailUnique ((updateTicket exDBcap1 ⟨some "T1", some "c@x.com", none⟩).2).tickets
    ∧ emailUnique ((validateTicket exDBcap1 "T1" "alice" "C0DE99").2).tickets
    ∧ emailUnique ((deleteEvent exDBcap1 ⟨some "E9", some "alice"⟩).2).tickets := by
  have h := C7_duplicate_email_uniqueness exDBcap1 "bob" "E9" "a@x.com" "T2"
  exact ⟨h.1.1 rfl, h.1.2 ⟨some "bob", some "E9", some "b@x.com"⟩ (by decide),
    h.2.1 ⟨some "T1", some "c@x.com", none⟩ (by decide) (by decide),
    h.2.2.1 "T1" "alice" "C0DE99" (by decide) (by decide),
    h.2.2.2 ⟨some "E9", some "alice"⟩ (by decide)⟩

/-! ### C6: delete_event permission gate and ticket cascade -/

/-- C6: delete_event succeeds exactly for a user that is authorized or a
    member of the event's creator_id list; on success the reported count is
    the number of tickets bound to the event, afterwards no ticket
    references the event_id and the event document is absent while users and
    locations are untouched; every rejected call leaves the store unchanged. -/
theorem C6_delete_event_cascade (db : DB) (eid uid : String) (evDoc : Event) (userDoc : User)
    (heid : eid ≠ "") (huid : uid ≠ "")
    (hev : db.events.find? (fun e => e.event_id == eid) = some evDoc)
    (huser : db.users.find? (fun u => u.user_id == uid) = some userDoc) :
    ((userDoc.auth = true ∨ uid ∈ evDoc.creator_id) →
      ∃ db2, deleteEvent db ⟨some eid, some uid⟩ =
        (.success (db.tickets.filter (fun t => t.event_id == eid)).length, db2) ∧
        db2.tickets.filter (fun t => t.event_id == eid) = [] ∧
        db2.events.find? (fun e => e.event_id == eid) = none ∧
        db2.users = db.users ∧ db2.locations = db.locations)
    ∧ (userDoc.auth = false → uid ∉ evDoc.creator_id →
        deleteEvent db ⟨some eid, some uid⟩ = (.forbidden, db))
    ∧ (∀ r db2, deleteEvent db ⟨some eid, some uid⟩ = (r, db2) →
        (∀ n, r ≠ .success n) → db2 = db) := by
  have hempty : (eid == "" || uid == "") = false := by
    simp [heid, huid]
  have hgate : ∀ (hok : ¬ ((!userDoc.auth && !(evDoc.creator_id.contains uid)) = true)),
      deleteEvent db ⟨some eid, some uid⟩ =
      (.success (db.tickets.filter (fun t => t.event_id == eid)).length,
       { db with
         tickets := (db.tickets.filter (fun t => t.event_id == eid)).foldl
           (fun acc t => removeTicketById acc t.ticket_id) db.tickets,
         events := db.events.filter (fun e => !(e.event_id == eid)) }) := by
    intro hok
    simp only [deleteEvent, hempty, hev, huser, if_neg hok, Bool.false_eq_true, if_false]
  have hgateNo : ∀ (hno : (!userDoc.auth && !(evDoc.creator_id.contains uid)) = true),
      deleteEvent db ⟨some eid, some uid⟩ = (.forbidden, db) := by
    intro hno
    simp only [deleteEvent, hempty, hev, huser, if_pos hno, Bool.false_eq_true, if_false]
  refine ⟨?_, ?_, ?_⟩
  · intro hallow
    have hok : ¬ ((!userDoc.auth && !(evDoc.creator_id.contains uid)) = true) := by
      rcases hallow with h | h
      · simp [h]
      · have hc : evDoc.creator_id.contains uid = true := by simpa using h
        rw [hc]
        simp
    refine ⟨_, hgate hok, ?_, ?_, rfl, rfl⟩
    · rw [foldl_removeTicketById]
      rw [List.filter_eq_nil_iff]
      intro x hx
      rw [List.mem_filter] at hx
      obtain ⟨hx1, hx2⟩ := hx
      intro hxe
      rw [Bool.not_eq_true', List.any_eq_false] at hx2
      have := hx2 x (by rw [List.mem_filter]; exact ⟨hx1, hxe⟩)
      simp at this
    · rw [List.find?_eq_none]
      intro x hx
      rw [List.mem_filter] at hx
      simpa using hx.2
  · intro hna hnc
    have hcon : evDoc.creator_id.contains uid = false := by simpa using hnc
    exact hgateNo (by rw [hna, hcon]; rfl)
  · intro r db2 hrun hns
    by_cases hok : ((!userDoc.auth && !(evDoc.creator_id.contains uid)) = true)
    · rw [hgateNo hok] at hrun
      cases hrun
      rfl
    · rw [hgate hok] at hrun
      cases hrun
      exact absurd rfl (hns _)

/-- C6 fixture: the capacity-1 event with two tickets bound to it, its
    creator alice, and an unauthorized outsider carol. -/
def c6db : DB :=
  ⟨[exEventCap1], [exLoc], [⟨"alice", true⟩, ⟨"carol", false⟩],
   [⟨"T1", "alice", "E9", "a@x.com", false⟩, ⟨"T2", "bob", "E9", "b@x.com", true⟩]⟩

/-- C6 witness: the creator deletes event E9 and both of its tickets in one
    call, and the unauthorized non-creator carol is rejected with the store
    untouched. -/
theorem C6_witness :
    (∃ db2, deleteEvent c6db ⟨some "E9", some "alice"⟩ =
        (.success (c6db.tickets.filter (fun t => t.event_id == "E9")).length, db2) ∧
        db2.tickets.filter (fun t => t.event_id == "E9") = [] ∧
        db2.events.find? (fun e => e.event_id == "E9") = none ∧
        db2.users = c6db.users ∧ db2.locations = c6db.locations)
    ∧ deleteEvent c6db ⟨some "E9", some "carol"⟩ = (.forbidden, c6db) :=
  ⟨(C6_delete_event_cascade c6db "E9" "alice" exEventCap1 ⟨"alice", true⟩
      (by decide) (by decide) rfl rfl).1 (Or.inl rfl),
   (C6_delete_event_cascade c6db "E9" "carol" exEventCap1 ⟨"carol", false⟩
      (by decide) (by decide) rfl rfl).2.1 rfl (by decide)⟩

/-! ### C9: validate_ticket rejections, ownership before code -/

/-- C9: validate_ticket called by the ticket's owner with a code different
    from the referenced event's code returns the invalid-code error with the
    store unchanged (the ticket keeps whatever validated flag it had), and a
    caller who is not the ticket's owner is rejected with the not-owner error
    regardless of the code supplied, showing ownership is checked before the
    code. -/
theorem C9_validate_wrong_code (db : DB) (tid uid code : String) (tk : Ticket) (ev : Event)
    (htid : tid ≠ "") (huid : uid ≠ "") (hcode : code ≠ "")
    (htk : db.tickets.find? (fun t => t.ticket_id == tid) = some tk)
    (howner : tk.user_id = uid)
    (hev : db.events.find? (fun e => e.event_id == tk.event_id) = some ev)
    (hne : ev.code ≠ code) :
    validateTicket db tid uid code = (.invalidCode, db)
    ∧ (∀ uid2 code2, uid2 ≠ "" → code2 ≠ "" → tk.user_id ≠ uid2 →
        validateTicket db tid uid2 code2 = (.notTicketOwner, db)) := by
  constructor
  · have h0 : (tid == "" || uid == "" || code == "") = false := by simp [htid, huid, hcode]
    simp only [validateTicket, h0, Bool.false_eq_true, if_false, htk, hev]
    rw [if_neg (by simp [howner]), if_pos hne]
  · intro uid2 code2 h1 h2 hno
    have h0 : (tid == "" || uid2 == "" || code2 == "") = false := by simp [htid, h1, h2]
    simp only [validateTicket, h0, Bool.false_eq_true, if_false, htk]
    rw [if_pos hno]

/-- C9 witness, Scenario E: the owner presenting a wrong code gets the
    invalid-code error with the ticket still unvalidated, and a non-owner
    presenting the correct code is rejected as not the ticket owner. -/
theorem C9_witness :
    validateTicket exDBcap1 "T1" "alice" "WRONG" = (.invalidCode, exDBcap1)
    ∧ validateTicket exDBcap1 "T1" "bob" "C0DE99" = (.notTicketOwner, exDBcap1) := by
  have h := C9_validate_wrong_code exDBcap1 "T1" "alice" "WRONG"
    ⟨"T1", "alice", "E9", "a@x.com", false⟩ exEventCap1
    (by decide) (by decide) (by decide) rfl rfl rfl (by decide)
  exact ⟨h.1, h.2 "bob" "C0DE99" (by decide) (by decide) (by decide)⟩

/-! ### C10: re-validating an already validated ticket -/

/-- C10: validate_ticket does not reject an already validated ticket: called
    by the owner with the correct event code on a ticket whose validated flag
    is already true, it succeeds again and the store, in particular the
    ticket document, is unchanged. -/
theorem C10_revalidate_idempotent (db : DB) (tid uid code : String) (tk : Ticket) (ev : Event)
    (htid : tid ≠ "") (huid : uid ≠ "") (hcode : code ≠ "")
    (htk : db.tickets.find? (fun t => t.ticket_id == tid) = some tk)
    (huniq : ∀ u ∈ db.tickets, u.ticket_id = tk.ticket_id → u = tk)
    (howner : tk.user_id = uid)
    (hval : tk.validated = true)
    (hev : db.events.find? (fun e => e.event_id == tk.event_id) = some ev)
    (hcodeEq : ev.code = code) :
    validateTicket db tid uid code = (.success, db) := by
  have h0 : (tid == "" || uid == "" || code == "") = false := by simp [htid, huid, hcode]
  simp only [validateTicket, h0, Bool.false_eq_true, if_false, htk, hev]
  rw [if_neg (by simp [howner]), if_neg (by simp [hcodeEq])]
  have hsame : ({ tk with validated := true } : Ticket) = tk := by
    obtain ⟨a, b, c, d, e⟩ := tk
    simp only at hval
    rw [hval]
  rw [hsame]
  have hmap : replaceTicket db.tickets tk = db.tickets := by
    unfold replaceTicket
    rw [List.map_congr_left (fun a ha => ?_), List.map_id]
    by_cases hid : (a.ticket_id == tk.ticket_id) = true
    · rw [if_pos hid]
      exact (huniq a ha (by simpa using hid)).symm
    · rw [if_neg hid]
      rfl
  rw [hmap]

/-- C10 witness: re-validating the already validated ticket T2 with the
    owning user and the correct code succeeds and leaves the store equal. -/
theorem C10_witness :
    validateTicket c6db "T2" "bob" "C0DE99" = (.success, c6db) :=
  C10_revalidate_idempotent c6db "T2" "bob" "C0DE99"
    ⟨"T2", "bob", "E9", "b@x.com", true⟩ exEventCap1
    (by decide) (by decide) (by decide) rfl (by decide) rfl rfl rfl rfl

/-! ### C8: no un-validate -/

/-- C8 fixture: a store holding one already validated ticket. -/
def c8db : DB := ⟨[], [], [], [⟨"T1", "u1", "E1", "a@x.com", true⟩]⟩

/-- C8 counterexample: update_ticket accepts validated = false in its body
    and sets an already validated ticket back to validated = false, so the
    system does have an operation that un-validates a ticket. -/
theorem C8_counterexample :
    (updateTicket c8db ⟨some "T1", none, some false⟩).1 = .success ∧
    ((updateTicket c8db ⟨some "T1", none, some false⟩).2).tickets =
      [⟨"T1", "u1", "E1", "a@x.com", false⟩] := ⟨rfl, rfl⟩

/-- C8 amended: validate_ticket never transitions a ticket from
    validated = true back to false: whatever its outcome, every ticket
    position that held a validated ticket still holds a validated ticket
    (the operation only ever sets validated to true); the original claim
    fails only because update_ticket applies whatever boolean the request
    body carries. -/
theorem C8_validate_never_unvalidates (db : DB) (tid uid code : String)
    (i : Nat) (t t2 : Ticket)
    (hpre : db.tickets[i]? = some t)
    (hpost : ((validateTicket db tid uid code).2).tickets[i]? = some t2)
    (hval : t.validated = true) : t2.validated = true := by
  unfold validateTicket at hpost
  split at hpost
  · rw [hpre] at hpost
    cases hpost
    exact hval
  · cases htk : db.tickets.find? (fun x => x.ticket_id == tid) with
    | none =>
      simp only [htk] at hpost
      rw [hpre] at hpost
      cases hpost
      exact hval
    | some tk =>
      simp only [htk] at hpost
      split at hpost
      · rw [hpre] at hpost
        cases hpost
        exact hval
      · cases hev : db.events.find? (fun e => e.event_id == tk.event_id) with
        | none =>
          simp only [hev] at hpost
          rw [hpre] at hpost
          cases hpost
          exact hval
        | some ev =>
          simp only [hev] at hpost
          split at hpost
          · rw [hpre] at hpost
            cases hpost
            exact hval
          · simp only [replaceTicket, List.getElem?_map, hpre, Option.map_some] at hpost
            cases hpost
            beta_reduce
            split
            · rfl
            · exact hval

/-- C8 witness: applying the amended theorem to the successful re-validation
    of the validated ticket T2 shows its flag is still true afterwards. -/
theorem C8_witness :
    (⟨"T2", "bob", "E9", "b@x.com", true⟩ : Ticket).validated = true :=
  C8_validate_never_unvalidates c6db "T2" "bob" "C0DE99" 1
    ⟨"T2", "bob", "E9", "b@x.com", true⟩ ⟨"T2", "bob", "E9", "b@x.com", true⟩ rfl rfl rfl

/-! ### C5: update_event permission gate -/

set_option maxHeartbeats 2000000 in
/-- After the permission check passes, no later step of update_event can
    produce the unauthorized rejection. -/
theorem updateEventBody_not_unauthorized (db : DB) (p : EventPatch) (eid : String)
    (ev0 : Event) (nt : List String) (db2 : DB) :
    updateEventBody db p eid ev0 nt ≠ (.unauthorized, db2) := by
  intro h
  unfold updateEventBody at h
  simp only [] at h
  unfold updateEventRoomBlock at h
  repeat' split at h
  all_goals injection h with h1 h2
  all_goals exact UeResp.noConfusion h1

/-- C5 fixture: an event created by alice alone. -/
def c5evt : Event :=
  ⟨"E1", "ABC123", ["alice"], "n", ["COMP3200"], "d", "L1", "R1", 10, 20, 5, []⟩

/-- C5 fixture store: alice and bob are authorized, carol is not; only alice
    is in the event's creator_id list. -/
def c5db : DB :=
  ⟨[c5evt], [exLoc], [⟨"alice", true⟩, ⟨"bob", true⟩, ⟨"carol", false⟩], []⟩

/-- C5 fixture patch: bob, who is authorized but not a creator of E1, sends
    an update carrying no field changes. -/
def c5patch : EventPatch :=
  ⟨some "E1", some "bob", none, none, none, none, none, none, none, none, none⟩

/-- C5 counterexample: update_event accepts the request of the authorized
    user bob even though bob is not in the event's creator_id list, so
    membership in creator_ids is not required for updates. -/
theorem C5_counterexample :
    (updateEvent c5db c5patch).1 = .success ∧ "bob" ∉ c5evt.creator_id := ⟨rfl, by decide⟩

/-- C5 amended: the only permission check of update_event is the requesting
    user's authorized flag: an existing user with auth = false is always
    rejected as unauthorized with the store unchanged, and for an existing
    user with auth = true the call never fails with the unauthorized error,
    regardless of membership in the event's creator_id list. -/
theorem C5_update_auth_only_gate (db : DB) (p : EventPatch) (eid uid : String)
    (ev0 : Event) (userDoc : User)
    (hpe : p.event_id = some eid) (hpu : p.user_id = some uid)
    (heid : eid ≠ "") (huid : uid ≠ "")
    (hev : db.events.find? (fun e => e.event_id == eid) = some ev0)
    (huser : db.users.find? (fun u => u.user_id == uid) = some userDoc) :
    (userDoc.auth = false → updateEvent db p = (.unauthorized, db))
    ∧ (userDoc.auth = true → ∀ db2, updateEvent db p ≠ (.unauthorized, db2)) := by
  have hempty : (eid == "" || uid == "") = false := by simp [heid, huid]
  constructor
  · intro hna
    simp only [updateEvent, hpe, hpu, hempty, Bool.false_eq_true, if_false, hev, huser, hna,
      Bool.not_false, if_true]
  · intro hauth db2
    simp only [updateEvent, hpe, hpu, hempty, Bool.false_eq_true, if_false, hev, huser, hauth,
      Bool.not_true]
    cases htags : tagsAfterPatch ev0.tags p.tags with
    | none =>
      intro h
      injection h with h1 h2
      exact UeResp.noConfusion h1
    | some nt =>
      simp only []
      exact updateEventBody_not_unauthorized db p eid ev0 nt db2

/-- C5 witness: the unauthorized user carol is rejected with the store
    unchanged, and the authorized non-creator bob is never rejected as
    unauthorized. -/
theorem C5_witness :
    (updateEvent c5db ⟨some "E1", some "carol", none, none, none, none, none, none,
        none, none, none⟩ = (.unauthorized, c5db))
    ∧ (∀ db2, updateEvent c5db c5patch ≠ (.unauthorized, db2)) :=
  ⟨(C5_update_auth_only_gate c5db
      ⟨some "E1", some "carol", none, none, none, none, none, none, none, none, none⟩
      "E1" "carol" c5evt ⟨"carol", false⟩ rfl rfl (by decide) (by decide) rfl rfl).1 rfl,
   (C5_update_auth_only_gate c5db c5patch "E1" "bob" c5evt ⟨"bob", true⟩
      rfl rfl (by decide) (by decide) rfl rfl).2 rfl⟩

/-! ### C4: over-issuance under concurrent create_ticket calls -/

/-- C4 fixture: an event with max_tick = 1. -/
def c4evt : Event :=
  ⟨"E1", "C0DE00", ["alice"], "n", ["COMP3200"], "d", "L1", "R1", 10, 20, 1, []⟩

/-- C4 fixture store: the capacity-1 event, two users, no tickets yet. -/
def c4db : DB := ⟨[c4evt], [exLoc], [⟨"u1", true⟩, ⟨"u2", true⟩], []⟩

/-- C4 fixture: the two competing tickets. -/
def c4t1 : Ticket := ⟨"T1", "u1", "E1", "a@x.com", false⟩

def c4t2 : Ticket := ⟨"T2", "u2", "E1", "b@x.com", false⟩

/-- C4: the dynamic gate of create_ticket is a plain read-count-then-insert,
    so when two calls against the capacity-1 event both run their COUNT
    query before either insert, both are admitted and the final issued count
    is 2 > max_tick = 1, violating issuedTicketCount ≤ max_tickets and the
    exactly-min(N, K)-successes requirement; run sequentially, the same two
    calls give one success and one EventFull rejection. -/
theorem C4_overissuance_under_interleaving :
    (twoParallelCreates c4db "E1" c4evt.max_tick c4t1 c4t2).1 = true
    ∧ (twoParallelCreates c4db "E1" c4evt.max_tick c4t1 c4t2).2.1 = true
    ∧ issuedCount (twoParallelCreates c4db "E1" c4evt.max_tick c4t1 c4t2).2.2 "E1" = 2
    ∧ c4evt.max_tick = 1
    ∧ (createTicket c4db ⟨some "u1", some "E1", some "a@x.com"⟩ "T1").1 = .success "T1"
    ∧ (createTicket ((createTicket c4db ⟨some "u1", some "E1", some "a@x.com"⟩ "T1").2)
        ⟨some "u2", some "E1", some "b@x.com"⟩ "T2").1 = .eventFull :=
  ⟨rfl, rfl, rfl, rfl, rfl, rfl⟩

end Evecs
